import Mathlib

/-!
Shallow embedding of measurement-kit/libnettest2 (src/libnettest2.hpp) and
proofs about the claims of its specification.

Modelling conventions:

* JSON values (nlohmann::json) are modelled by the inductive `Json` below;
  numbers are modelled as exact rationals (the source uses IEEE doubles, but
  every numeric literal relevant here, e.g. the progress percentages, is
  exactly representable and only compared or copied).
* Machine integers are modelled as `Nat` with explicit bounds where the source
  checks them (the dispatcher caps the input index at UINT32_MAX).
* Network and system calls (cURL, MMDB, getaddrinfo) are external libraries:
  each fallible call is an oracle field of the `Oracles` structure, carrying
  either its success value or the `ErrContext` the library would produce.
  What the source does with the oracle results - clearing output parameters,
  choosing defaults, emitting events - is embedded faithfully.
* `log` events (the LIBNETTEST2_EMIT_* macros) are pure diagnostics gated by
  the log level and are not part of the event model; no claim mentions them.
* The parallel worker pool of Runner::run is linearized: the next-index
  counter is mutex-guarded in the source, so the sequence of claimed indices
  is the same in every interleaving, and all non-measurement events are
  emitted by the main thread in program order.
-/

namespace Libnettest2

/-- JSON values, mirroring the subset of nlohmann::json the library uses. -/
inductive Json where
  | null : Json
  | bool : Bool → Json
  | num : ℚ → Json
  | str : String → Json
  | arr : List Json → Json
  | obj : List (String × Json) → Json
deriving Inhabited

/-- True iff the value is a JSON object. -/
def Json.isObj : Json → Bool
  | .obj _ => true
  | _ => false

/-- Replace the binding of `k` in an association list, or append it. This is
nlohmann's `operator[]=` on an object (key order differs, field set agrees). -/
def setAssoc : List (String × Json) → String → Json → List (String × Json)
  | [], k, v => [(k, v)]
  | (k', v') :: rest, k, v =>
      if k' = k then (k', v) :: rest else (k', v') :: setAssoc rest k v

/-- Look up a key in an association list. -/
def getAssoc : List (String × Json) → String → Option Json
  | [], _ => none
  | (k', v') :: rest, k => if k' = k then some v' else getAssoc rest k

/-- `j[k] = v` of nlohmann::json: objects get the binding replaced or added,
null is first converted to an empty object. On any other type the source
throws (terminating the noexcept caller); that case is modelled as a no-op
and excluded by hypothesis wherever it matters. -/
def Json.setField : Json → String → Json → Json
  | .obj fs, k, v => .obj (setAssoc fs k v)
  | .null, k, v => .obj [(k, v)]
  | j, _, _ => j

/-- Read a field of a JSON object. -/
def Json.getField? : Json → String → Option Json
  | .obj fs, k => getAssoc fs k
  | _, _ => none

/-- `j[k1][k2] = v`: nlohmann's `operator[]` materializes a null entry for a
missing key `k1` before the inner assignment. -/
def Json.setFieldIn (j : Json) (k1 k2 : String) (v : Json) : Json :=
  j.setField k1 (((j.getField? k1).getD .null).setField k2 v)

/-- The values a nettest may leave in `*test_keys` without the source
terminating: `measurement["test_keys"]["client_resolver"] = ...` requires an
object (or null, which nlohmann converts to an object). -/
def TestKeysOk (j : Json) : Prop := j.isObj = true ∨ j = .null

-- Versioning (src/libnettest2.hpp lines 64-94)

def default_engine_name : String := "libnettest2"

def version_major : ℕ := 0
def version_minor : ℕ := 6
def version_patch : ℕ := 0

/-- `version()`: string representation of the version. -/
def version : String :=
  toString version_major ++ "." ++ toString version_minor ++ "."
    ++ toString version_patch

def TimeoutDefault : ℕ := 90

/-- Log levels (lines 101-108). -/
inductive LogLevel where
  | log_quiet
  | log_err
  | log_warning
  | log_info
  | log_debug
  | log_debug2
deriving DecidableEq, Repr

/-- Error descriptor produced by every failable I/O operation (lines 113-119). -/
structure ErrContext where
  code : ℤ := 1
  library_name : String := ""
  library_version : String := ""
  reason : String := ""

/-- Settings (lines 141-190), with the C++ member initializers as defaults.
The C++ field `annotations` is named `annots` here (the JSON key in the
measurement record keeps the source spelling); everything else keeps the
source name. -/
structure Settings where
  annots : List (String × String) := []
  inputs : List String := []
  input_filepaths : List String := []
  log_filepath : String := ""
  log_level : LogLevel := .log_warning
  name : String := ""
  output_filepath : String := ""
  all_endpoints : Bool := false
  bouncer_base_url : String := "https://bouncer.ooni.io"
  ca_bundle_path : String := ""
  collector_base_url : String := ""
  engine_name : String := default_engine_name
  engine_version : String := version
  engine_version_full : String := version
  geoip_asn_path : String := ""
  geoip_country_path : String := ""
  max_runtime : ℕ := TimeoutDefault
  no_asn_lookup : Bool := false
  no_bouncer : Bool := false
  no_cc_lookup : Bool := false
  no_collector : Bool := false
  no_file_report : Bool := false
  no_ip_lookup : Bool := false
  no_resolver_lookup : Bool := false
  parallelism : ℕ := 0
  platform : String := ""
  port : ℕ := 0
  probe_ip : String := ""
  probe_asn : String := ""
  probe_network_name : String := ""
  probe_cc : String := ""
  randomize_input : Bool := true
  save_real_probe_asn : Bool := true
  save_real_probe_ip : Bool := false
  save_real_probe_cc : Bool := true
  save_real_resolver_ip : Bool := true
  server : String := ""
  software_name : String := default_engine_name
  software_version : String := version

-- EndpointInfo (lines 198-209)

abbrev EndpointType := ℕ

def endpoint_type_none : EndpointType := 0
def endpoint_type_onion : EndpointType := 1
def endpoint_type_cloudfront : EndpointType := 2
def endpoint_type_https : EndpointType := 3

structure EndpointInfo where
  type : EndpointType := endpoint_type_none
  address : String := ""
  front : String := ""

/-- NettestContext (lines 214-224); `test_helpers` is the map from helper
name to endpoint list. -/
structure NettestContext where
  collectors : List EndpointInfo := []
  probe_asn : String := ""
  probe_cc : String := ""
  probe_ip : String := ""
  probe_network_name : String := ""
  report_id : String := ""
  resolver_ip : String := ""
  test_helpers : List (String × List EndpointInfo) := []

/-- The constant parts of the Nettest capability interface (lines 239-256);
the `run()` member is an oracle (`Oracles.nettestRun`). -/
structure Nettest where
  name : String := ""
  test_helpers : List String := []
  version : String := "0.0.1"
  needs_input : Bool := false

/-- `LIBNETTEST2_PLATFORM` (lines 788-803); a Linux build is assumed. -/
def LIBNETTEST2_PLATFORM : String := "linux"

/-- Events (`emit_ev(key, value)` occurrences). The constructors carry the
payload fields the source puts in each event value. `failureStage s e` is
`failure.<s>` with payload failure="library_error" and the error context;
the `report_not_open_error` shapes of `failure.report_close` and
`failure.measurement_submission` have their own constructors because the
source gives them a different payload (no error context, no idx). -/
inductive Ev where
  | statusQueued
  | statusStarted
  | statusProgress (percentage : ℚ) (message : String)
  | failureStage (stage : String) (err : ErrContext)
  | statusGeoipLookup (probe_cc probe_asn probe_ip probe_network_name : String)
  | statusResolverLookup (resolver_ip : String)
  | statusReportCreate (report_id : String)
  | statusReportClose (report_id : String)
  | failureReportCloseNotOpen
  | statusMeasurementStart (idx : ℕ) (input : String)
  | failureMeasurement (idx : ℕ)
  | failureMeasurementSubmission (idx : ℕ) (mjson : Json) (err : ErrContext)
  | failureMeasurementSubmissionNotOpen
  | statusMeasurementSubmission (idx : ℕ)
  | measurementEv (idx : ℕ) (mjson : Json)
  | statusMeasurementDone (idx : ℕ)
  | statusEnd (failure : String) (downloaded_kb uploaded_kb : ℚ)

/-- Results of the external calls a run makes, plus the nondeterministic
inputs (clocks, randomness). An `Except` value is `ok` when the C++ call
returns true; the `error` payload is the `ErrContext` it fills, together
with any partially-written output parameters (see each field). -/
structure Oracles where
  /-- `query_bouncer`: on success the discovered collectors and test
  helpers; on failure the partially parsed lists (the source fills the
  output vectors while parsing and an exception may hit midway). -/
  queryBouncer :
    Except (ErrContext × List EndpointInfo × List (String × List EndpointInfo))
      (List EndpointInfo × List (String × List EndpointInfo)) := .ok ([], [])
  /-- Body returned by `curlx_get` inside `lookup_ip`. -/
  ipResponse : Except ErrContext String := .ok ""
  /-- `lookup_asn` (MMDB): success gives (asn, network name); the failure
  payload carries the partially written asn ("" unless the ASN field was
  already read when the organization read failed). -/
  lookupAsn : Except (ErrContext × String) (String × String) := .ok ("AS0", "")
  /-- `lookup_cc` (MMDB): `*cc` is only written on full success. -/
  lookupCc : Except ErrContext String := .ok "ZZ"
  /-- `lookup_resolver_ip`: `*ip` is cleared on entry, written on success. -/
  lookupResolverIp : Except ErrContext String := .ok ""
  /-- `open_report`: `*report_id` is cleared on entry, written on success. -/
  openReport : Except ErrContext String := .ok ""
  /-- `update_report` per input index. -/
  updateReport : ℕ → Except ErrContext Unit := fun _ => .ok ()
  /-- `close_report`. -/
  closeReport : Except ErrContext Unit := .ok ()
  /-- The nettest's `run()` per input index: its return value and the
  test keys it wrote. -/
  nettestRun : ℕ → Bool × Json := fun _ => (true, .obj [])
  /-- `sole::uuid4().str()` per input index. -/
  uuid : ℕ → String := fun _ => ""
  /-- `format_system_clock_now()` at measurement start, per input index. -/
  measurementStartTime : ℕ → String := fun _ => ""
  /-- Wall-clock seconds the nettest consumed, per input index. -/
  testRuntime : ℕ → ℚ := fun _ => 0
  /-- `format_system_clock_now()` before the open-report stage. -/
  testStartTime : String := ""
  /-- Whether the `elapsed >= max_runtime * 0.9` check fires when the
  worker processes input index i. -/
  timedOut : ℕ → Bool := fun _ => false
  /-- Whether `interrupted_` is observed set at the top of the worker loop
  iteration that would otherwise claim index i. -/
  interrupted : ℕ → Bool := fun _ => false
  /-- Whether `measurement.dump()` succeeds for input index i (it throws on
  non-UTF-8 data). -/
  dumpOk : ℕ → Bool := fun _ => true
  /-- `std::shuffle` under `randomize_input`, as a function of the list. -/
  shuffle : List String → List String := id
  /-- Final values of the byte counters, read by the `status.end` emission. -/
  bytesDown : ℕ := 0
  bytesUp : ℕ := 0

-- xml_extract and lookup_ip (lines 1586-1622)

/-- First index at which `pat` occurs in `hay` (std::string::find). -/
def findSub : List Char → List Char → ℕ → Option ℕ
  | [], pat, i => if pat = [] then some i else none
  | c :: rest, pat, i =>
      if pat.isPrefixOf (c :: rest) then some i else findSub rest pat (i + 1)

/-- `xml_extract(input, open_tag, close_tag, result)` (lines 1586-1605) with
`*result` empty on entry (as in `lookup_ip`): `some s` is return-true with
`*result == s`; `none` is return-false with `*result` untouched. The text
between the tags is copied minus whitespace, lowercased. -/
def xml_extract (input open_tag close_tag : String) : Option String :=
  match findSub input.data open_tag.data 0 with
  | none => none
  | some pos =>
    let rest := input.data.drop (pos + open_tag.data.length)
    match findSub rest close_tag.data 0 with
    | none => none
    | some pos2 =>
      let inner := rest.take pos2
      some (String.mk (inner.filterMap
        (fun ch => if ch.isWhitespace then none else some ch.toLower)))

/-- `Runner::lookup_ip` (lines 1607-1622). Takes the current value of the
`*ip` output parameter (which the function immediately clears) and the
`curlx_get` oracle; returns the final `*ip` value, the boolean result and
the error context the caller sees. Note that the entry `ip->clear()` runs
before any failure, so on failure `*ip` is the empty string, not whatever
default the caller had stored. -/
def lookup_ip (ip : String) (ipResponse : Except ErrContext String) :
    String × Bool × ErrContext :=
  let _ := ip  -- ip->clear(): the incoming value is discarded
  match ipResponse with
  | .error e => ("", false, e)
  | .ok responsebody =>
    match xml_extract responsebody "<Ip>" "</Ip>" with
    | none => ("", false, {})  -- err untouched: default ErrContext
    | some found => (found, true, {})

-- Measurement record construction (run_with_index32, lines 1231-1409)

/-- The JSON object for one test helper endpoint (lines 1328-1339). A `none`
type leaves only the address field, as in the source. -/
def helperJson (e : EndpointInfo) : Json :=
  let j := (Json.obj []).setField "address" (.str e.address)
  if e.type = endpoint_type_onion then j.setField "type" (.str "onion")
  else if e.type = endpoint_type_https then j.setField "type" (.str "https")
  else if e.type = endpoint_type_cloudfront then
    (j.setField "type" (.str "cloudfront")).setField "front" (.str e.front)
  else j

/-- The `test_helpers` field (lines 1305-1341): for each helper name the
endpoints are written in order into the same key, so the last one wins. -/
def testHelpersJson (ths : List (String × List EndpointInfo)) : Json :=
  ths.foldl
    (fun acc kv => kv.2.foldl (fun acc2 e => acc2.setField kv.1 (helperJson e)) acc)
    (Json.obj [])

/-- The measurement record as built before the nettest runs
(lines 1259-1345), field assignments in source order. The spelling
"sotfware_name" / "sotfware_version" reproduces the source (lines
1302-1303). -/
def buildMeasurement (s : Settings) (nt : Nettest) (ctx : NettestContext)
    (uuid input measurement_start_time test_start_time : String) : Json :=
  let m := Json.obj []
  let m := m.setField "annotations"
    (Json.obj (s.annots.map (fun p => (p.1, Json.str p.2))))
  let m := m.setFieldIn "annotations" "engine_name" (.str s.engine_name)
  let m := m.setFieldIn "annotations" "engine_version" (.str s.engine_version)
  let m := m.setFieldIn "annotations" "engine_version_full"
    (.str s.engine_version_full)
  let m := m.setFieldIn "annotations" "platform"
    (.str (if s.platform ≠ "" then s.platform else LIBNETTEST2_PLATFORM))
  let m := m.setFieldIn "annotations" "probe_network_name"
    (.str (if s.save_real_probe_asn then ctx.probe_network_name else ""))
  let m := m.setField "id" (.str uuid)
  let m := m.setField "input" (.str input)
  let m := m.setField "input_hashes" (.arr [])
  let m := m.setField "measurement_start_time" (.str measurement_start_time)
  let m := m.setField "options" (.arr [])
  let m := m.setField "probe_asn"
    (.str (if s.save_real_probe_asn then ctx.probe_asn else ""))
  let m := m.setField "probe_cc"
    (.str (if s.save_real_probe_cc then ctx.probe_cc else ""))
  let m := m.setField "probe_city" .null
  let m := m.setField "probe_ip"
    (.str (if s.save_real_probe_ip then ctx.probe_ip else ""))
  let m := m.setField "report_id" (.str ctx.report_id)
  let m := m.setField "sotfware_name" (.str s.software_name)
  let m := m.setField "sotfware_version" (.str s.software_version)
  let m := m.setField "test_helpers" (testHelpersJson ctx.test_helpers)
  let m := m.setField "test_name" (.str nt.name)
  let m := m.setField "test_start_time" (.str test_start_time)
  let m := m.setField "test_version" (.str nt.version)
  m

/-- The measurement record as serialized and submitted: `buildMeasurement`
followed by the post-run assignments of `test_runtime` (line 1355),
`test_keys` (line 1359) and `test_keys.client_resolver` (lines 1360-1362,
deliberately after the nettest returned). -/
def finalMeasurement (s : Settings) (nt : Nettest) (ctx : NettestContext)
    (uuid input measurement_start_time test_start_time : String)
    (test_runtime : ℚ) (test_keys : Json) : Json :=
  let m := buildMeasurement s nt ctx uuid input measurement_start_time
    test_start_time
  let m := m.setField "test_runtime" (.num test_runtime)
  let m := m.setField "test_keys" test_keys
  let m := m.setFieldIn "test_keys" "client_resolver"
    (.str (if s.save_real_resolver_ip then ctx.resolver_ip else ""))
  m

/-- `Runner::run_with_index32` (lines 1231-1409): events emitted while
measuring input index `i`, and the return value (false only when the
max-runtime check fires). -/
def run_with_index32 (s : Settings) (nt : Nettest) (ctx : NettestContext)
    (o : Oracles) (inputs : List String) (i : ℕ) : List Ev × Bool :=
  if o.timedOut i then ([], false)
  else
    let input := inputs.getD i ""
    let startEv : List Ev := [.statusMeasurementStart i input]
    let rvKeys := o.nettestRun i
    let m := finalMeasurement s nt ctx (o.uuid i) input
      (o.measurementStartTime i) o.testStartTime (o.testRuntime i) rvKeys.2
    let failEvs : List Ev := if rvKeys.1 then [] else [.failureMeasurement i]
    let submitEvs : List Ev :=
      if o.dumpOk i then
        (if s.no_collector = false ∧ ctx.report_id ≠ "" then
          match o.updateReport i with
          | .error e => [.failureMeasurementSubmission i m e]
          | .ok _ => [.statusMeasurementSubmission i]
        else if ctx.report_id = "" then [.failureMeasurementSubmissionNotOpen]
        else [])
        ++ [.measurementEv i m]
      else []  -- dump() threw: submission and measurement event skipped
    (startEv ++ failEvs ++ submitEvs ++ [.statusMeasurementDone i], true)

/-- The worker loop (lines 1153-1170), linearized: the mutex-guarded index
makes the claimed indices 0,1,2,... in every interleaving. One fuel unit per
iteration; the loop claims at most `inputs.length` indices, so any
`fuel ≥ inputs.length` is exact. The guard reproduces
`i > UINT32_MAX || i >= cinputs.size()`. -/
def measureLoop (s : Settings) (nt : Nettest) (ctx : NettestContext)
    (o : Oracles) (inputs : List String) : ℕ → ℕ → List Ev
  | 0, _ => []
  | fuel + 1, i =>
    if o.interrupted i then []
    else if 2 ^ 32 - 1 < i ∨ inputs.length ≤ i then []
    else
      let r := run_with_index32 s nt ctx o inputs i
      r.1 ++ (if r.2 then measureLoop s nt ctx o inputs fuel (i + 1) else [])

-- Runner::run (lines 904-1206), stage by stage

/-- Bouncer stage (lines 912-932): fills ctx.collectors / ctx.test_helpers;
a failure only logs a warning, no failure event. -/
def bouncerStage (s : Settings) (o : Oracles) :
    List EndpointInfo × List (String × List EndpointInfo) :=
  if s.no_bouncer = false then
    match o.queryBouncer with
    | .ok r => r
    | .error e => (e.2.1, e.2.2)  -- partially parsed output, warning only
  else ([], [])

/-- Probe-IP stage (lines 939-968): the resulting ctx.probe_ip and the
events emitted. When the setting is empty the default "127.0.0.1" is stored
first, but `lookup_ip` clears `*ip` on entry, so a failed lookup leaves the
empty string. -/
def ipStage (s : Settings) (o : Oracles) : String × List Ev :=
  if s.probe_ip = "" then
    let probe_ip := "127.0.0.1"
    if s.no_ip_lookup = false then
      let r := lookup_ip probe_ip o.ipResponse
      (r.1, if r.2.1 then [] else [.failureStage "ip_lookup" r.2.2])
    else (probe_ip, [])
  else (s.probe_ip, [])

/-- ASN stage (lines 969-994): resulting (ctx.probe_asn,
ctx.probe_network_name) and events. The same clear-on-entry applies to
`lookup_asn`, so a failed lookup loses the "AS0" default. -/
def asnStage (s : Settings) (o : Oracles) : String × String × List Ev :=
  if s.probe_asn = "" then
    let probe_asn := "AS0"
    if s.no_asn_lookup = false then
      match o.lookupAsn with
      | .ok r => (r.1, r.2, [])
      | .error e => (e.2, "", [.failureStage "asn_lookup" e.1])
    else (probe_asn, "", [])
  else (s.probe_asn, s.probe_network_name, [])

/-- CC stage (lines 995-1016): resulting ctx.probe_cc and events; `lookup_cc`
also clears `*cc` on entry, so a failed lookup loses the "ZZ" default. -/
def ccStage (s : Settings) (o : Oracles) : String × List Ev :=
  if s.probe_cc = "" then
    let probe_cc := "ZZ"
    if s.no_cc_lookup = false then
      match o.lookupCc with
      | .ok cc => (cc, [])
      | .error e => ("", [.failureStage "cc_lookup" e])
    else (probe_cc, [])
  else (s.probe_cc, [])

/-- Resolver stage (lines 1029-1041): resulting ctx.resolver_ip and events. -/
def resolverStage (s : Settings) (o : Oracles) : String × List Ev :=
  if s.no_resolver_lookup = false then
    match o.lookupResolverIp with
    | .ok ip => (ip, [])
    | .error e => ("", [.failureStage "resolver_lookup" e])
  else ("", [])

/-- Open-report stage (lines 1046-1078): the collector base URL, the
resulting ctx.report_id and the events. Note the source calls `open_report`
only inside the `collector_base_url == ""` branch: with a nonempty
configured URL it stores the URL and skips `open_report` entirely. -/
def collectorStage (s : Settings) (o : Oracles)
    (collectors : List EndpointInfo) : String × String × List Ev :=
  if s.no_collector = false then
    if s.collector_base_url = "" then
      let url :=
        ((collectors.find? (fun e => e.type == endpoint_type_https)).map
          EndpointInfo.address).getD ""
      match o.openReport with
      | .error e => (url, "", [.failureStage "report_create" e])
      | .ok rid => (url, rid, [.statusReportCreate rid])
    else (s.collector_base_url, "", [])
  else ("", "", [])

/-- Close-report events (lines 1182-1195). -/
def closeStage (s : Settings) (o : Oracles) (report_id : String) : List Ev :=
  if s.no_collector = false ∧ report_id ≠ "" then
    match o.closeReport with
    | .error e => [.failureStage "report_close" e]
    | .ok _ => [.statusReportClose report_id]
  else if report_id = "" then [.failureReportCloseNotOpen]
  else []

/-- The measurement phase (the do-while block, lines 1080-1198): empty when
a needs-input nettest has no configured inputs (the `break` at line 1086,
which also skips the 0.9 and 1.0 progress events and the close-report
stage). -/
def measurePhase (s : Settings) (nt : Nettest) (ctx : NettestContext)
    (o : Oracles) : List Ev :=
  if nt.needs_input && s.inputs.isEmpty then []
  else
    let inputs := if nt.needs_input then s.inputs else [""]
    let inputs := if s.randomize_input then o.shuffle inputs else inputs
    measureLoop s nt ctx o inputs inputs.length 0
      ++ [.statusProgress 0.9 "measurement complete"]
      ++ closeStage s o ctx.report_id
      ++ [.statusProgress 1.0 "report close"]

/-- `Runner::run()` (lines 904-1206): the full event trace and the return
value. -/
def Runner.run (s : Settings) (nt : Nettest) (o : Oracles) :
    List Ev × Bool :=
  let bres := bouncerStage s o
  let ipres := ipStage s o
  let asnres := asnStage s o
  let ccres := ccStage s o
  let resres := resolverStage s o
  let colres := collectorStage s o bres.1
  let ctx : NettestContext :=
    { collectors := bres.1
      probe_asn := asnres.1
      probe_cc := ccres.1
      probe_ip := ipres.1
      probe_network_name := asnres.2.1
      report_id := colres.2.1
      resolver_ip := resres.1
      test_helpers := bres.2 }
  ([Ev.statusQueued, Ev.statusStarted]
    ++ [.statusProgress 0.1 "contact bouncer"]
    ++ ipres.2 ++ asnres.2.2 ++ ccres.2
    ++ [.statusProgress 0.2 "geoip lookup"]
    ++ [.statusGeoipLookup ctx.probe_cc ctx.probe_asn ctx.probe_ip
          ctx.probe_network_name]
    ++ resres.2
    ++ [.statusProgress 0.3 "resolver lookup"]
    ++ [.statusResolverLookup ctx.resolver_ip]
    ++ colres.2.2
    ++ [.statusProgress 0.4 "open report"]
    ++ measurePhase s nt ctx o
    ++ [.statusEnd "" ((o.bytesDown : ℚ) / 1024) ((o.bytesUp : ℚ) / 1024)],
   true)

-- Concrete instances used by witnesses and counterexamples

/-- A default-constructed Settings object (all C++ member initializers). -/
def defaultSettings : Settings := {}

/-- The default Nettest (lines 838-853): no name, no input needed. -/
def defaultNettest : Nettest := {}

/-- Oracles where every external call succeeds trivially. -/
def trivialOracles : Oracles := {}

-- Event classification helpers used by the theorems

/-- The percentage of a `status.progress` event. -/
def progress? : Ev → Option ℚ
  | .statusProgress p _ => some p
  | _ => none

/-- The percentages carried by the `status.progress` events of a trace,
in emission order. -/
def progressPercentages (evs : List Ev) : List ℚ := evs.filterMap progress?

/-- Events that witness an `open_report` attempt: `status.report_create`
or `failure.report_create`. -/
def isReportCreateEv : Ev → Bool
  | .statusReportCreate _ => true
  | .failureStage st _ => st == "report_create"
  | _ => false

def isStatusEndEv : Ev → Bool
  | .statusEnd _ _ _ => true
  | _ => false

def isGeoipEv : Ev → Bool
  | .statusGeoipLookup _ _ _ _ => true
  | _ => false

def isResolverLookupEv : Ev → Bool
  | .statusResolverLookup _ => true
  | _ => false

def isFailureIpLookupEv : Ev → Bool
  | .failureStage st _ => st == "ip_lookup"
  | _ => false

/-- The probe_ip field of a `status.geoip_lookup` event. -/
def geoipIp? : Ev → Option String
  | .statusGeoipLookup _ _ ip _ => some ip
  | _ => none

/-- Events that only `run_with_index32` emits. -/
def measurePhaseEv : Ev → Bool
  | .statusMeasurementStart _ _ => true
  | .failureMeasurement _ => true
  | .failureMeasurementSubmission _ _ _ => true
  | .failureMeasurementSubmissionNotOpen => true
  | .statusMeasurementSubmission _ => true
  | .measurementEv _ _ => true
  | .statusMeasurementDone _ => true
  | _ => false

/-- The index of a `status.measurement_start` event. -/
def startIdx? : Ev → Option ℕ
  | .statusMeasurementStart i _ => some i
  | _ => none

/-- The indices claimed by the dispatcher, read off the
`status.measurement_start` events (each fully dispatched index emits
exactly one). -/
def startIdxs (evs : List Ev) : List ℕ := evs.filterMap startIdx?

-- Concrete inputs for the code-bug theorems

/-- Settings with a configured collector base URL (C1). -/
def sC1 : Settings := { collector_base_url := "https://collector.example.org" }

/-- Oracles where the `lookup_ip` HTTP GET fails (C2). -/
def oC2 : Oracles := { ipResponse := .error {} }

/-- Oracles whose nettest `run()` returns false on every input (C10). -/
def oC10 : Oracles := { nettestRun := fun _ => (false, .obj []) }

/-- A context with an open report (C10). -/
def ctxC10 : NettestContext := { report_id := "rid" }

-- parse_settings (lines 477-693). The nlohmann string-to-JSON parse is the
-- external library (a malformed string gives "json_parse_error"); the
-- embedding starts from the parsed document. The C++ function mutates a
-- caller-supplied Settings in place; here a fresh default-constructed
-- Settings is filled, which matches the documented usage. Note that
-- json_maybe_get always resets its output (`*value = {}`, line 437), so a
-- field missing from the JSON ends up value-initialized, not at its
-- Settings default; the embedding reproduces that.

/-- True iff the value is a JSON string. -/
def Json.isStr : Json → Bool
  | .str _ => true
  | _ => false

/-- Split a character list at every slash. -/
def splitSlashAux : List Char → List Char → List String
  | [], acc => [String.mk acc.reverse]
  | c :: rest, acc =>
      if c = '/' then String.mk acc.reverse :: splitSlashAux rest []
      else splitSlashAux rest (c :: acc)

/-- A JSON pointer "/a/b" as its reference tokens. -/
def jsonPointerParse (p : String) : List String :=
  (splitSlashAux p.data []).drop 1

/-- `doc.at(pointer)`: `none` when any token is missing or the value on the
way is not an object (both throw in the source, and `json_maybe_get`
catches every exception the same way). -/
def jsonPointerAt : Json → List String → Option Json
  | j, [] => some j
  | .obj fs, k :: rest =>
      match getAssoc fs k with
      | some v => jsonPointerAt v rest
      | none => none
  | _, _ :: _ => none

/-- The invalid_settings_error text of `json_maybe_get` (lines 447-452),
without the quoted type names of the C++ message. -/
def conversionErrMsg (ptr : String) (ty : String) : String :=
  "invalid_settings_error: cannot convert variable accessed using " ++ ptr
    ++ " as JSON pointer to C++ type " ++ ty

/-- `out_of_range_error_gen` (lines 459-467). -/
def outOfRangeErrMsg (ptr : String) : String :=
  "invalid_settings_error: cannot validate variable accessed using " ++ ptr
    ++ " because the value is out of range"

/-- `format_error_gen` (lines 469-475). -/
def formatErrMsg (ptr : String) : String :=
  "invalid_settings_error: cannot validate variable accessed using " ++ ptr
    ++ " because the variable should be an integer but you actually provided"
    ++ " a floating point number"

/-- The deprecation warning of MAYBE_GET_BOOL (lines 561-573). -/
def deprecationWarning (ptr : String) : String :=
  "Found number variable at " ++ ptr ++ " and treating it as boolean. This"
    ++ " is for backward compatibility with MK up to 0.9.0-alpha.9 where we"
    ++ " did not allow boolean variables. Change your code to use boolean to"
    ++ " get rid of this warning."

/-- `json_maybe_get<bool>`: missing entry is fine (and leaves the reset
value, i.e. false); a non-boolean entry is a conversion error. -/
def jsonMaybeGetBool (doc : Json) (ptr : String) : Except String Bool :=
  match jsonPointerAt doc (jsonPointerParse ptr) with
  | none => .ok false
  | some (.bool b) => .ok b
  | some _ => .error (conversionErrMsg ptr "bool")

/-- `json_maybe_get<double>`: nlohmann converts any JSON number. -/
def jsonMaybeGetNum (doc : Json) (ptr : String) : Except String ℚ :=
  match jsonPointerAt doc (jsonPointerParse ptr) with
  | none => .ok 0
  | some (.num q) => .ok q
  | some _ => .error (conversionErrMsg ptr "double")

/-- `json_maybe_get<std::string>`. -/
def jsonMaybeGetString (doc : Json) (ptr : String) : Except String String :=
  match jsonPointerAt doc (jsonPointerParse ptr) with
  | none => .ok ""
  | some (.str s) => .ok s
  | some _ => .error (conversionErrMsg ptr "std::string")

def Json.asString : Json → Option String
  | .str s => some s
  | _ => none

/-- `json_maybe_get<std::vector<std::string>>`. -/
def jsonMaybeGetStringList (doc : Json) (ptr : String) :
    Except String (List String) :=
  match jsonPointerAt doc (jsonPointerParse ptr) with
  | none => .ok []
  | some (.arr xs) =>
      match xs.mapM Json.asString with
      | some l => .ok l
      | none => .error (conversionErrMsg ptr "std::vector<std::string>")
  | some _ => .error (conversionErrMsg ptr "std::vector<std::string>")

/-- `json_maybe_get<std::map<std::string, std::string>>`. -/
def jsonMaybeGetStringMap (doc : Json) (ptr : String) :
    Except String (List (String × String)) :=
  match jsonPointerAt doc (jsonPointerParse ptr) with
  | none => .ok []
  | some (.obj fs) =>
      match fs.mapM (fun kv => (Json.asString kv.2).map (fun v => (kv.1, v))) with
      | some l => .ok l
      | none => .error (conversionErrMsg ptr "StringStringMap")
  | some _ => .error (conversionErrMsg ptr "StringStringMap")

/-- MAYBE_GET_BOOL (lines 549-576): try the boolean; on a conversion error
retry as a number and coerce `!= 0.0`, recording the deprecation warning; a
second failure reports the original boolean conversion error (`errx` is
discarded in the source). Returns the value and the warning written, if
any. -/
def maybeGetBool (doc : Json) (ptr : String) :
    Except String (Bool × Option String) :=
  match jsonMaybeGetBool doc ptr with
  | .ok b => .ok (b, none)
  | .error e =>
      match jsonMaybeGetNum doc ptr with
      | .ok q => .ok (q != 0, some (deprecationWarning ptr))
      | .error _ => .error e

/-- MAYBE_GET_UINT8 / MAYBE_GET_UINT16 (lines 580-622): read a double,
reject non-integral values (the modf check) and values outside 0..max. -/
def maybeGetUInt (doc : Json) (ptr : String) (max : ℕ) : Except String ℕ :=
  match jsonMaybeGetNum doc ptr with
  | .error e => .error e
  | .ok q =>
      if q.den ≠ 1 then .error (formatErrMsg ptr)
      else if q < 0 ∨ (max : ℚ) < q then .error (outOfRangeErrMsg ptr)
      else .ok q.num.toNat

/-- The `/log_level` string-to-enumeration mapping (lines 628-653); the
empty string keeps the current (default) level. -/
def parseLogLevel (s : String) : Except String LogLevel :=
  if s = "" then .ok .log_warning
  else if s = "QUIET" then .ok .log_quiet
  else if s = "ERR" then .ok .log_err
  else if s = "WARNING" then .ok .log_warning
  else if s = "INFO" then .ok .log_info
  else if s = "DEBUG" then .ok .log_debug
  else if s = "DEBUG2" then .ok .log_debug2
  else .error (conversionErrMsg "/log_level" "LogLevel")

/-- The single `*warn` buffer: every numeric-as-boolean coercion overwrites
it, in execution order; it starts empty. -/
def overwriteWarn (ws : List (Option String)) : String :=
  ws.foldl (fun acc w => w.getD acc) ""

/-- The shape validations at the top of parse_settings (lines 494-513). -/
def validateSettingsDoc (doc : Json) : Except String Unit :=
  if !doc.isObj then
    .error "invalid_settings_error: JSON document is not an object"
  else if (doc.getField? "options").isNone then
    .error "invalid_settings_error: missing options entry"
  else if !((doc.getField? "options").getD .null).isObj then
    .error "invalid_settings_error: options entry is not an object"
  else if (doc.getField? "name").isNone then
    .error "invalid_settings_error: missing name entry"
  else if !((doc.getField? "name").getD .null).isStr then
    .error "invalid_settings_error: name entry is not a string"
  else .ok ()

/-- `parse_settings` (lines 477-693): either the invalid_settings_error (or
conversion-error) message, or the parsed Settings together with the final
content of the `*warn` buffer (empty when no deprecated numeric boolean was
seen). The reads are in source order; the record is assembled at the end
because each field is written exactly once. -/
def parse_settings (doc : Json) : Except String (Settings × String) := do
  let _ ← validateSettingsDoc doc
  let vAnnots ← jsonMaybeGetStringMap doc "/annotations"
  let vInputs ← jsonMaybeGetStringList doc "/inputs"
  let vInputFilepaths ← jsonMaybeGetStringList doc "/input_filepaths"
  let vLogFilepath ← jsonMaybeGetString doc "/log_filepath"
  let vLogLevelStr ← jsonMaybeGetString doc "/log_level"
  let vLogLevel ← parseLogLevel vLogLevelStr
  let vName ← jsonMaybeGetString doc "/name"
  let vOutputFilepath ← jsonMaybeGetString doc "/output_filepath"
  let vAllEndpoints ← maybeGetBool doc "/options/all_endpoints"
  let vBouncerBaseUrl ← jsonMaybeGetString doc "/options/bouncer_base_url"
  let vCaBundlePath ← jsonMaybeGetString doc "/options/ca_bundle_path"
  let vCollectorBaseUrl ← jsonMaybeGetString doc "/options/collector_base_url"
  let vEngineName ← jsonMaybeGetString doc "/options/engine_name"
  let vEngineVersion ← jsonMaybeGetString doc "/options/engine_version"
  let vEngineVersionFull ← jsonMaybeGetString doc "/options/engine_version_full"
  let vGeoipAsnPath ← jsonMaybeGetString doc "/options/geoip_asn_path"
  let vGeoipCountryPath ← jsonMaybeGetString doc "/options/geoip_country_path"
  let vMaxRuntime ← maybeGetUInt doc "/options/max_runtime" 65535
  let vNoAsnLookup ← maybeGetBool doc "/options/no_asn_lookup"
  let vNoBouncer ← maybeGetBool doc "/options/no_bouncer"
  let vNoCcLookup ← maybeGetBool doc "/options/no_cc_lookup"
  let vNoCollector ← maybeGetBool doc "/options/no_collector"
  let vNoFileReport ← maybeGetBool doc "/options/no_file_report"
  let vNoIpLookup ← maybeGetBool doc "/options/no_ip_lookup"
  let vNoResolverLookup ← maybeGetBool doc "/options/no_resolver_lookup"
  let vParallelism ← maybeGetUInt doc "/options/parallelism" 255
  let vPlatform ← jsonMaybeGetString doc "/options/platform"
  let vPort ← maybeGetUInt doc "/options/port" 65535
  let vProbeIp ← jsonMaybeGetString doc "/options/probe_ip"
  let vProbeAsn ← jsonMaybeGetString doc "/options/probe_asn"
  let vProbeNetworkName ← jsonMaybeGetString doc "/options/probe_network_name"
  let vProbeCc ← jsonMaybeGetString doc "/options/probe_cc"
  let vRandomizeInput ← maybeGetBool doc "/options/randomize_input"
  let vSaveRealProbeAsn ← maybeGetBool doc "/options/save_real_probe_asn"
  let vSaveRealProbeIp ← maybeGetBool doc "/options/save_real_probe_ip"
  let vSaveRealProbeCc ← maybeGetBool doc "/options/save_real_probe_cc"
  let vSaveRealResolverIp ← maybeGetBool doc "/options/save_real_resolver_ip"
  let vServer ← jsonMaybeGetString doc "/options/server"
  let vSoftwareName ← jsonMaybeGetString doc "/options/software_name"
  let vSoftwareVersion ← jsonMaybeGetString doc "/options/software_version"
  .ok ({ annots := vAnnots
         inputs := vInputs
         input_filepaths := vInputFilepaths
         log_filepath := vLogFilepath
         log_level := vLogLevel
         name := vName
         output_filepath := vOutputFilepath
         all_endpoints := vAllEndpoints.1
         bouncer_base_url := vBouncerBaseUrl
         ca_bundle_path := vCaBundlePath
         collector_base_url := vCollectorBaseUrl
         engine_name := vEngineName
         engine_version := vEngineVersion
         engine_version_full := vEngineVersionFull
         geoip_asn_path := vGeoipAsnPath
         geoip_country_path := vGeoipCountryPath
         max_runtime := vMaxRuntime
         no_asn_lookup := vNoAsnLookup.1
         no_bouncer := vNoBouncer.1
         no_cc_lookup := vNoCcLookup.1
         no_collector := vNoCollector.1
         no_file_report := vNoFileReport.1
         no_ip_lookup := vNoIpLookup.1
         no_resolver_lookup := vNoResolverLookup.1
         parallelism := vParallelism
         platform := vPlatform
         port := vPort
         probe_ip := vProbeIp
         probe_asn := vProbeAsn
         probe_network_name := vProbeNetworkName
         probe_cc := vProbeCc
         randomize_input := vRandomizeInput.1
         save_real_probe_asn := vSaveRealProbeAsn.1
         save_real_probe_ip := vSaveRealProbeIp.1
         save_real_probe_cc := vSaveRealProbeCc.1
         save_real_resolver_ip := vSaveRealResolverIp.1
         server := vServer
         software_name := vSoftwareName
         software_version := vSoftwareVersion },
       overwriteWarn [vAllEndpoints.2, vNoAsnLookup.2, vNoBouncer.2,
         vNoCcLookup.2, vNoCollector.2, vNoFileReport.2, vNoIpLookup.2,
         vNoResolverLookup.2, vRandomizeInput.2, vSaveRealProbeAsn.2,
         vSaveRealProbeIp.2, vSaveRealProbeCc.2, vSaveRealResolverIp.2])

/-- The thirteen boolean options read through MAYBE_GET_BOOL. -/
inductive BoolOption where
  | all_endpoints
  | no_asn_lookup
  | no_bouncer
  | no_cc_lookup
  | no_collector
  | no_file_report
  | no_ip_lookup
  | no_resolver_lookup
  | randomize_input
  | save_real_probe_asn
  | save_real_probe_ip
  | save_real_probe_cc
  | save_real_resolver_ip
deriving DecidableEq, Repr

/-- The JSON pointer of a boolean option. -/
def BoolOption.ptr : BoolOption → String
  | .all_endpoints => "/options/all_endpoints"
  | .no_asn_lookup => "/options/no_asn_lookup"
  | .no_bouncer => "/options/no_bouncer"
  | .no_cc_lookup => "/options/no_cc_lookup"
  | .no_collector => "/options/no_collector"
  | .no_file_report => "/options/no_file_report"
  | .no_ip_lookup => "/options/no_ip_lookup"
  | .no_resolver_lookup => "/options/no_resolver_lookup"
  | .randomize_input => "/options/randomize_input"
  | .save_real_probe_asn => "/options/save_real_probe_asn"
  | .save_real_probe_ip => "/options/save_real_probe_ip"
  | .save_real_probe_cc => "/options/save_real_probe_cc"
  | .save_real_resolver_ip => "/options/save_real_resolver_ip"

/-- The Settings field a boolean option is stored into. -/
def BoolOption.field : BoolOption → Settings → Bool
  | .all_endpoints => Settings.all_endpoints
  | .no_asn_lookup => Settings.no_asn_lookup
  | .no_bouncer => Settings.no_bouncer
  | .no_cc_lookup => Settings.no_cc_lookup
  | .no_collector => Settings.no_collector
  | .no_file_report => Settings.no_file_report
  | .no_ip_lookup => Settings.no_ip_lookup
  | .no_resolver_lookup => Settings.no_resolver_lookup
  | .randomize_input => Settings.randomize_input
  | .save_real_probe_asn => Settings.save_real_probe_asn
  | .save_real_probe_ip => Settings.save_real_probe_ip
  | .save_real_probe_cc => Settings.save_real_probe_cc
  | .save_real_resolver_ip => Settings.save_real_resolver_ip

/-- A well-formed settings document for the C8 witness: name, an options
object holding a numeric no_bouncer. -/
def docC8 : Json :=
  .obj [("name", .str "dummy"),
        ("options", .obj [("no_bouncer", .num 1)])]

/-- The result of parsing `docC8` (the parse succeeds; see the C8 witness). -/
def parsedC8 : Settings × String :=
  ((parse_settings docC8).toOption).getD ({}, "")

end Libnettest2

namespace Libnettest2

-- Helper lemmas about the JSON model

theorem getAssoc_setAssoc_self (fs : List (String × Json)) (k : String)
    (v : Json) : getAssoc (setAssoc fs k v) k = some v := by
  induction fs with
  | nil => simp [setAssoc, getAssoc]
  | cons hd tl ih =>
    by_cases h : hd.1 = k
    · simp [setAssoc, getAssoc, h]
    · simp [setAssoc, getAssoc, h, ih]

theorem getAssoc_setAssoc_ne (fs : List (String × Json)) (k k' : String)
    (v : Json) (h : k' ≠ k) :
    getAssoc (setAssoc fs k v) k' = getAssoc fs k' := by
  induction fs with
  | nil => simp [setAssoc, getAssoc, Ne.symm h]
  | cons hd tl ih =>
    by_cases hh : hd.1 = k
    · simp [setAssoc, getAssoc, hh, Ne.symm h]
    · simp [setAssoc, getAssoc, hh, ih]

/-- Reading back the key just written, for object-or-null targets. -/
theorem Json.getField?_setField_self (j : Json) (k : String) (v : Json)
    (h : j.isObj = true ∨ j = .null) :
    (j.setField k v).getField? k = some v := by
  rcases h with h | h
  · cases j with
    | obj fs => simp [Json.setField, Json.getField?, getAssoc_setAssoc_self]
    | _ => simp [Json.isObj] at h
  · subst h
    simp [Json.setField, Json.getField?, getAssoc]

/-- Writing one key does not change another, for every target. -/
theorem Json.getField?_setField_ne (j : Json) (k k' : String) (v : Json)
    (h : k' ≠ k) : (j.setField k v).getField? k' = j.getField? k' := by
  cases j with
  | obj fs => simp [Json.setField, Json.getField?, getAssoc_setAssoc_ne _ _ _ _ h]
  | null => simp [Json.setField, Json.getField?, getAssoc, Ne.symm h]
  | _ => rfl

theorem Json.isObj_setField (j : Json) (k : String) (v : Json)
    (h : j.isObj = true ∨ j = .null) : (j.setField k v).isObj = true := by
  rcases h with h | h
  · cases j with
    | obj fs => rfl
    | _ => simp [Json.isObj] at h
  · subst h; rfl

-- Claims about the measurement record (C3, C5, C6)

/-- Claim C3 (code bug): the measurement record built by `run_with_index32`
has NO field named software_name (nor software_version): the source writes
the field names with a typo, "sotfware_name" and "sotfware_version"
(lines 1302-1303), though the values are indeed the software_name and
software_version settings. `open_report` (lines 1685-1686) and the OONI data
format use the correct spelling, so the record field name is a slip of the
code. -/
theorem claim_C3_sotfware_typo (s : Settings) (nt : Nettest)
    (ctx : NettestContext) (uuid input mst tst : String) (rt : ℚ)
    (tk : Json) :
    (finalMeasurement s nt ctx uuid input mst tst rt tk).getField?
        "software_name" = none ∧
    (finalMeasurement s nt ctx uuid input mst tst rt tk).getField?
        "software_version" = none ∧
    (finalMeasurement s nt ctx uuid input mst tst rt tk).getField?
        "sotfware_name" = some (.str s.software_name) ∧
    (finalMeasurement s nt ctx uuid input mst tst rt tk).getField?
        "sotfware_version" = some (.str s.software_version) := by
  refine ⟨?_, ?_, ?_, ?_⟩ <;>
    simp [finalMeasurement, buildMeasurement, Json.setFieldIn, Json.setField,
      Json.getField?, setAssoc, getAssoc]

/-- Claim C5 (confirmed): in the record that is serialized and submitted,
test_keys.client_resolver equals ctx.resolver_ip if save_real_resolver_ip
and "" otherwise, whatever value the nettest left in
test_keys.client_resolver: the Runner assigns the field after the nettest
returned (lines 1357-1362). -/
theorem claim_C5_client_resolver (s : Settings) (nt : Nettest)
    (ctx : NettestContext) (uuid input mst tst : String) (rt : ℚ)
    (tk : Json) (h : TestKeysOk tk) :
    ((finalMeasurement s nt ctx uuid input mst tst rt tk).getField?
        "test_keys").bind (fun j => j.getField? "client_resolver")
      = some (.str (if s.save_real_resolver_ip then ctx.resolver_ip else ""))
      := by
  have hm : (finalMeasurement s nt ctx uuid input mst tst rt tk).getField?
      "test_keys"
      = some (tk.setField "client_resolver"
          (.str (if s.save_real_resolver_ip then ctx.resolver_ip else ""))) := by
    simp [finalMeasurement, buildMeasurement, Json.setFieldIn, Json.setField,
      Json.getField?, setAssoc, getAssoc]
  rw [hm]
  rcases h with h | h
  · cases tk with
    | obj fs =>
        simp [Json.setField, Json.getField?, getAssoc_setAssoc_self]
    | _ => simp [Json.isObj] at h
  · subst h
    simp [Json.setField, Json.getField?, getAssoc]

/-- Witness for C5 at a concrete record: the nettest wrote a bogus
client_resolver, the submitted record carries ctx.resolver_ip. -/
theorem claim_C5_witness :
    ((finalMeasurement { defaultSettings with save_real_resolver_ip := true }
        defaultNettest { resolver_ip := "10.0.0.53" } "u" "" "t0" "t1" 0
        (.obj [("client_resolver", .str "8.8.8.8")])).getField?
        "test_keys").bind (fun j => j.getField? "client_resolver")
      = some (.str "10.0.0.53") := by
  have h := claim_C5_client_resolver
    { defaultSettings with save_real_resolver_ip := true } defaultNettest
    { resolver_ip := "10.0.0.53" } "u" "" "t0" "t1" 0
    (.obj [("client_resolver", .str "8.8.8.8")]) (Or.inl rfl)
  simpa using h

/-- Claim C6 (confirmed): the record fields probe_ip / probe_asn / probe_cc
are the context values when the matching save_real_probe_* flag is true and
the empty string when it is false (lines 1295-1300). -/
theorem claim_C6_save_flags (s : Settings) (nt : Nettest)
    (ctx : NettestContext) (uuid input mst tst : String) (rt : ℚ)
    (tk : Json) :
    (finalMeasurement s nt ctx uuid input mst tst rt tk).getField? "probe_ip"
        = some (.str (if s.save_real_probe_ip then ctx.probe_ip else "")) ∧
    (finalMeasurement s nt ctx uuid input mst tst rt tk).getField? "probe_asn"
        = some (.str (if s.save_real_probe_asn then ctx.probe_asn else "")) ∧
    (finalMeasurement s nt ctx uuid input mst tst rt tk).getField? "probe_cc"
        = some (.str (if s.save_real_probe_cc then ctx.probe_cc else "")) := by
  refine ⟨?_, ?_, ?_⟩ <;>
    simp [finalMeasurement, buildMeasurement, Json.setFieldIn, Json.setField,
      Json.getField?, setAssoc, getAssoc]

-- Which events each stage can emit

theorem ipStage_events (s : Settings) (o : Oracles) :
    ∀ ev ∈ (ipStage s o).2, ∃ e, ev = .failureStage "ip_lookup" e := by
  unfold ipStage
  split
  · split
    · dsimp only
      split <;> simp
    · simp
  · simp

theorem asnStage_events (s : Settings) (o : Oracles) :
    ∀ ev ∈ (asnStage s o).2.2, ∃ e, ev = .failureStage "asn_lookup" e := by
  unfold asnStage
  split
  · split
    · dsimp only
      split <;> simp
    · simp
  · simp

theorem ccStage_events (s : Settings) (o : Oracles) :
    ∀ ev ∈ (ccStage s o).2, ∃ e, ev = .failureStage "cc_lookup" e := by
  unfold ccStage
  split
  · split
    · dsimp only
      split <;> simp
    · simp
  · simp

theorem resolverStage_events (s : Settings) (o : Oracles) :
    ∀ ev ∈ (resolverStage s o).2, ∃ e, ev = .failureStage "resolver_lookup" e
    := by
  unfold resolverStage
  split
  · split
    · simp
    · simp
  · simp

theorem collectorStage_events (s : Settings) (o : Oracles)
    (cs : List EndpointInfo) :
    ∀ ev ∈ (collectorStage s o cs).2.2,
      (∃ e, ev = .failureStage "report_create" e) ∨
      (∃ r, ev = .statusReportCreate r) := by
  unfold collectorStage
  split
  · split
    · dsimp only
      split <;> simp
    · simp
  · simp

theorem closeStage_events (s : Settings) (o : Oracles) (rid : String) :
    ∀ ev ∈ closeStage s o rid,
      (∃ e, ev = .failureStage "report_close" e) ∨
      ev = .statusReportClose rid ∨ ev = .failureReportCloseNotOpen := by
  unfold closeStage
  split
  · split
    · simp
    · simp
  · split
    · simp
    · simp

theorem run_with_index32_events (s : Settings) (nt : Nettest)
    (ctx : NettestContext) (o : Oracles) (inputs : List String) (i : ℕ) :
    ∀ ev ∈ (run_with_index32 s nt ctx o inputs i).1,
      measurePhaseEv ev = true := by
  unfold run_with_index32
  split
  · simp
  · dsimp only
    simp only [List.forall_mem_append]
    refine ⟨⟨⟨?_, ?_⟩, ?_⟩, ?_⟩
    · simp [measurePhaseEv]
    · split <;> simp [measurePhaseEv]
    · split
      · simp only [List.forall_mem_append]
        constructor
        · split
          · split <;> simp [measurePhaseEv]
          · split <;> simp [measurePhaseEv]
        · simp [measurePhaseEv]
      · simp
    · simp [measurePhaseEv]

theorem measureLoop_events (s : Settings) (nt : Nettest)
    (ctx : NettestContext) (o : Oracles) (inputs : List String)
    (fuel i : ℕ) :
    ∀ ev ∈ measureLoop s nt ctx o inputs fuel i,
      measurePhaseEv ev = true := by
  induction fuel generalizing i with
  | zero => simp [measureLoop]
  | succ fuel ih =>
    intro ev hev
    unfold measureLoop at hev
    revert hev
    split
    · simp
    · split
      · simp
      · intro hev
        simp only [List.mem_append] at hev
        rcases hev with h | h
        · exact run_with_index32_events s nt ctx o inputs i ev h
        · revert h
          split
          · intro h; exact ih _ ev h
          · simp

-- Generic counting helpers

theorem countP_eq_zero_of_forall_false {p : Ev → Bool} {l : List Ev}
    (h : ∀ ev ∈ l, p ev = false) : l.countP p = 0 := by
  rw [List.countP_eq_zero]
  intro a ha
  simp [h a ha]

theorem filterMap_eq_nil_of_forall_none {α : Type} {f : Ev → Option α}
    {l : List Ev} (h : ∀ ev ∈ l, f ev = none) : l.filterMap f = [] := by
  induction l with
  | nil => rfl
  | cons hd tl ih =>
    rw [List.filterMap_cons, h hd (by simp)]
    exact ih (fun ev hev => h ev (by simp [hev]))

-- No stage of the pipeline emits progress events except the main thread

theorem progress?_of_measurePhase (ev : Ev) (h : measurePhaseEv ev = true) :
    progress? ev = none := by
  cases ev <;> first | rfl | simp [measurePhaseEv] at h

theorem progress_ipStage (s : Settings) (o : Oracles) :
    (ipStage s o).2.filterMap progress? = [] :=
  filterMap_eq_nil_of_forall_none (fun ev hev => by
    obtain ⟨e, rfl⟩ := ipStage_events s o ev hev; rfl)

theorem progress_asnStage (s : Settings) (o : Oracles) :
    (asnStage s o).2.2.filterMap progress? = [] :=
  filterMap_eq_nil_of_forall_none (fun ev hev => by
    obtain ⟨e, rfl⟩ := asnStage_events s o ev hev; rfl)

theorem progress_ccStage (s : Settings) (o : Oracles) :
    (ccStage s o).2.filterMap progress? = [] :=
  filterMap_eq_nil_of_forall_none (fun ev hev => by
    obtain ⟨e, rfl⟩ := ccStage_events s o ev hev; rfl)

theorem progress_resolverStage (s : Settings) (o : Oracles) :
    (resolverStage s o).2.filterMap progress? = [] :=
  filterMap_eq_nil_of_forall_none (fun ev hev => by
    obtain ⟨e, rfl⟩ := resolverStage_events s o ev hev; rfl)

theorem progress_collectorStage (s : Settings) (o : Oracles)
    (cs : List EndpointInfo) :
    (collectorStage s o cs).2.2.filterMap progress? = [] :=
  filterMap_eq_nil_of_forall_none (fun ev hev => by
    rcases collectorStage_events s o cs ev hev with ⟨e, rfl⟩ | ⟨r, rfl⟩ <;> rfl)

theorem progress_closeStage (s : Settings) (o : Oracles) (rid : String) :
    (closeStage s o rid).filterMap progress? = [] :=
  filterMap_eq_nil_of_forall_none (fun ev hev => by
    rcases closeStage_events s o rid ev hev with ⟨e, rfl⟩ | rfl | rfl <;> rfl)

theorem progress_measureLoop (s : Settings) (nt : Nettest)
    (ctx : NettestContext) (o : Oracles) (inputs : List String)
    (fuel i : ℕ) :
    (measureLoop s nt ctx o inputs fuel i).filterMap progress? = [] :=
  filterMap_eq_nil_of_forall_none (fun ev hev =>
    progress?_of_measurePhase ev (measureLoop_events s nt ctx o inputs fuel i ev hev))

/-- The progress percentages of every run: the four fixed checkpoints, then
0.9 and 1.0 unless the needs-input-with-no-inputs break fired. -/
theorem progressPercentages_run (s : Settings) (nt : Nettest) (o : Oracles) :
    progressPercentages (Runner.run s nt o).1 =
      if nt.needs_input && s.inputs.isEmpty then
        [0.1, 0.2, 0.3, 0.4]
      else [0.1, 0.2, 0.3, 0.4, 0.9, 1.0] := by
  unfold Runner.run progressPercentages measurePhase
  dsimp only
  split
  · simp [List.filterMap_append, progress_ipStage, progress_asnStage,
      progress_ccStage, progress_resolverStage, progress_collectorStage,
      progress?]
  · simp [List.filterMap_append, progress_ipStage, progress_asnStage,
      progress_ccStage, progress_resolverStage, progress_collectorStage,
      progress_closeStage, progress_measureLoop, progress?]

-- Claim C4 (corrected)

/-- Counterexample to claim C4 as stated: for a needs-input nettest with an
empty configured input list (explicitly included by the claim) the last
progress percentage of the run is 0.4, not 1.0 - the `break` at line 1086
skips the 0.9 and 1.0 progress emissions. -/
theorem claim_C4_counterexample :
    (progressPercentages
        (Runner.run defaultSettings { needs_input := true } trivialOracles).1).getLast?
      = some 0.4 ∧ ¬ ((0.4 : ℚ) = 1) := by
  constructor
  · rw [progressPercentages_run]
    norm_num [defaultSettings]
  · norm_num

/-- Claim C4 as amended: the progress percentages of every run are
monotonically non-decreasing, and they end with 1.0 for every run except
when the nettest needs input and the configured input list is empty (then
the measure stage is skipped and the sequence ends with 0.4). -/
theorem claim_C4_progress_monotone (s : Settings) (nt : Nettest)
    (o : Oracles) :
    List.Chain' (· ≤ ·) (progressPercentages (Runner.run s nt o).1) ∧
    ((nt.needs_input && s.inputs.isEmpty) = false →
      (progressPercentages (Runner.run s nt o).1).getLast? = some 1) := by
  rw [progressPercentages_run]
  by_cases h : (nt.needs_input && s.inputs.isEmpty) = true
  · rw [if_pos h]
    exact ⟨by norm_num, fun hc => by rw [h] at hc; cases hc⟩
  · rw [if_neg h]
    refine ⟨by norm_num, fun _ => ?_⟩
    norm_num

/-- Witness for C4 at a concrete run (no-input nettest, trivial oracles):
the hypothesis of the second conjunct holds and the percentages end at 1. -/
theorem claim_C4_witness :
    List.Chain' (· ≤ ·)
      (progressPercentages
        (Runner.run defaultSettings defaultNettest trivialOracles).1) ∧
    (progressPercentages
        (Runner.run defaultSettings defaultNettest trivialOracles).1).getLast?
      = some 1 :=
  ⟨(claim_C4_progress_monotone defaultSettings defaultNettest trivialOracles).1,
   (claim_C4_progress_monotone defaultSettings defaultNettest trivialOracles).2
     rfl⟩

-- Counting lemmas shared by C9 and C1

/-- Zero count of a predicate over the measurement phase, given that the
predicate rejects everything the phase can emit. -/
theorem measurePhase_countP_zero (s : Settings) (nt : Nettest)
    (ctx : NettestContext) (o : Oracles) (p : Ev → Bool)
    (hmeasure : ∀ ev, measurePhaseEv ev = true → p ev = false)
    (hprog : ∀ q m, p (.statusProgress q m) = false)
    (hfailclose : ∀ e, p (.failureStage "report_close" e) = false)
    (hclose : ∀ r, p (.statusReportClose r) = false)
    (hnotopen : p .failureReportCloseNotOpen = false) :
    (measurePhase s nt ctx o).countP p = 0 := by
  unfold measurePhase
  split
  · rfl
  · dsimp only
    simp only [List.countP_append]
    have hml : ∀ inputs fuel i,
        (measureLoop s nt ctx o inputs fuel i).countP p = 0 :=
      fun inputs fuel i => countP_eq_zero_of_forall_false (fun ev hev =>
        hmeasure ev (measureLoop_events _ _ _ _ _ _ _ ev hev))
    have hcl : (closeStage s o ctx.report_id).countP p = 0 :=
      countP_eq_zero_of_forall_false (fun ev hev => by
        rcases closeStage_events s o ctx.report_id ev hev with ⟨e, rfl⟩ | rfl | rfl
        · exact hfailclose e
        · exact hclose _
        · exact hnotopen)
    rw [hml _ _ _, hcl]
    simp [List.countP_cons, hprog]

-- Claim C9 (confirmed)

theorem isStatusEndEv_of_measurePhase (ev : Ev)
    (h : measurePhaseEv ev = true) : isStatusEndEv ev = false := by
  cases ev <;> first | rfl | simp [measurePhaseEv] at h

theorem isGeoipEv_of_measurePhase (ev : Ev)
    (h : measurePhaseEv ev = true) : isGeoipEv ev = false := by
  cases ev <;> first | rfl | simp [measurePhaseEv] at h

theorem isResolverLookupEv_of_measurePhase (ev : Ev)
    (h : measurePhaseEv ev = true) : isResolverLookupEv ev = false := by
  cases ev <;> first | rfl | simp [measurePhaseEv] at h

theorem isReportCreateEv_of_measurePhase (ev : Ev)
    (h : measurePhaseEv ev = true) : isReportCreateEv ev = false := by
  cases ev <;> first | rfl | simp [measurePhaseEv] at h

/-- Claim C9 (confirmed): `Runner::run()` returns true for every settings
and nettest and every combination of stage failures, and the stages after a
failure still execute: exactly one `status.end`, one `status.geoip_lookup`
and one `status.resolver_lookup` are emitted no matter which oracles fail.
Stage failures surface only as `failure.<stage>` events (each stage event
list contains nothing else, see the `*_events` lemmas above). -/
theorem claim_C9_failures_isolated (s : Settings) (nt : Nettest)
    (o : Oracles) :
    (Runner.run s nt o).2 = true ∧
    (Runner.run s nt o).1.countP isStatusEndEv = 1 ∧
    (Runner.run s nt o).1.countP isGeoipEv = 1 ∧
    (Runner.run s nt o).1.countP isResolverLookupEv = 1 := by
  refine ⟨rfl, ?_, ?_, ?_⟩
  · unfold Runner.run
    dsimp only
    simp only [List.countP_append]
    have h1 : (ipStage s o).2.countP isStatusEndEv = 0 :=
      countP_eq_zero_of_forall_false (fun ev hev => by
        obtain ⟨e, rfl⟩ := ipStage_events s o ev hev; rfl)
    have h2 : (asnStage s o).2.2.countP isStatusEndEv = 0 :=
      countP_eq_zero_of_forall_false (fun ev hev => by
        obtain ⟨e, rfl⟩ := asnStage_events s o ev hev; rfl)
    have h3 : (ccStage s o).2.countP isStatusEndEv = 0 :=
      countP_eq_zero_of_forall_false (fun ev hev => by
        obtain ⟨e, rfl⟩ := ccStage_events s o ev hev; rfl)
    have h4 : (resolverStage s o).2.countP isStatusEndEv = 0 :=
      countP_eq_zero_of_forall_false (fun ev hev => by
        obtain ⟨e, rfl⟩ := resolverStage_events s o ev hev; rfl)
    have h5 : (collectorStage s o (bouncerStage s o).1).2.2.countP
        isStatusEndEv = 0 :=
      countP_eq_zero_of_forall_false (fun ev hev => by
        rcases collectorStage_events s o (bouncerStage s o).1 ev hev with
          ⟨e, rfl⟩ | ⟨r, rfl⟩ <;> rfl)
    have h6 := fun ctx => measurePhase_countP_zero s nt ctx o isStatusEndEv
      isStatusEndEv_of_measurePhase (fun q m => rfl) (fun e => rfl)
      (fun r => rfl) rfl
    rw [h1, h2, h3, h4, h5, h6 _]
    simp [List.countP_cons, isStatusEndEv]
  · unfold Runner.run
    dsimp only
    simp only [List.countP_append]
    have h1 : (ipStage s o).2.countP isGeoipEv = 0 :=
      countP_eq_zero_of_forall_false (fun ev hev => by
        obtain ⟨e, rfl⟩ := ipStage_events s o ev hev; rfl)
    have h2 : (asnStage s o).2.2.countP isGeoipEv = 0 :=
      countP_eq_zero_of_forall_false (fun ev hev => by
        obtain ⟨e, rfl⟩ := asnStage_events s o ev hev; rfl)
    have h3 : (ccStage s o).2.countP isGeoipEv = 0 :=
      countP_eq_zero_of_forall_false (fun ev hev => by
        obtain ⟨e, rfl⟩ := ccStage_events s o ev hev; rfl)
    have h4 : (resolverStage s o).2.countP isGeoipEv = 0 :=
      countP_eq_zero_of_forall_false (fun ev hev => by
        obtain ⟨e, rfl⟩ := resolverStage_events s o ev hev; rfl)
    have h5 : (collectorStage s o (bouncerStage s o).1).2.2.countP
        isGeoipEv = 0 :=
      countP_eq_zero_of_forall_false (fun ev hev => by
        rcases collectorStage_events s o (bouncerStage s o).1 ev hev with
          ⟨e, rfl⟩ | ⟨r, rfl⟩ <;> rfl)
    have h6 := fun ctx => measurePhase_countP_zero s nt ctx o isGeoipEv
      isGeoipEv_of_measurePhase (fun q m => rfl) (fun e => rfl)
      (fun r => rfl) rfl
    rw [h1, h2, h3, h4, h5, h6 _]
    simp [List.countP_cons, isGeoipEv]
  · unfold Runner.run
    dsimp only
    simp only [List.countP_append]
    have h1 : (ipStage s o).2.countP isResolverLookupEv = 0 :=
      countP_eq_zero_of_forall_false (fun ev hev => by
        obtain ⟨e, rfl⟩ := ipStage_events s o ev hev; rfl)
    have h2 : (asnStage s o).2.2.countP isResolverLookupEv = 0 :=
      countP_eq_zero_of_forall_false (fun ev hev => by
        obtain ⟨e, rfl⟩ := asnStage_events s o ev hev; rfl)
    have h3 : (ccStage s o).2.countP isResolverLookupEv = 0 :=
      countP_eq_zero_of_forall_false (fun ev hev => by
        obtain ⟨e, rfl⟩ := ccStage_events s o ev hev; rfl)
    have h4 : (resolverStage s o).2.countP isResolverLookupEv = 0 :=
      countP_eq_zero_of_forall_false (fun ev hev => by
        obtain ⟨e, rfl⟩ := resolverStage_events s o ev hev; rfl)
    have h5 : (collectorStage s o (bouncerStage s o).1).2.2.countP
        isResolverLookupEv = 0 :=
      countP_eq_zero_of_forall_false (fun ev hev => by
        rcases collectorStage_events s o (bouncerStage s o).1 ev hev with
          ⟨e, rfl⟩ | ⟨r, rfl⟩ <;> rfl)
    have h6 := fun ctx => measurePhase_countP_zero s nt ctx o isResolverLookupEv
      isResolverLookupEv_of_measurePhase (fun q m => rfl) (fun e => rfl)
      (fun r => rfl) rfl
    rw [h1, h2, h3, h4, h5, h6 _]
    simp [List.countP_cons, isResolverLookupEv]

-- Claim C1 (code bug)

/-- Claim C1 (code bug): with `no_collector` false and a nonempty
`collector_base_url` setting, the Runner never attempts `open_report` - no
`status.report_create` and no `failure.report_create` event is ever emitted,
whatever the oracles do. The source (lines 1047-1078) calls `open_report`
only inside the `collector_base_url == ""` branch; the nonempty branch just
stores the URL, so the report is never opened and every submission later
fails with report_not_open_error. -/
theorem claim_C1_open_report_skipped (nt : Nettest) (o : Oracles) :
    (Runner.run sC1 nt o).1.countP isReportCreateEv = 0 := by
  unfold Runner.run
  dsimp only
  simp only [List.countP_append]
  have h1 : (ipStage sC1 o).2.countP isReportCreateEv = 0 :=
    countP_eq_zero_of_forall_false (fun ev hev => by
      obtain ⟨e, rfl⟩ := ipStage_events sC1 o ev hev; rfl)
  have h2 : (asnStage sC1 o).2.2.countP isReportCreateEv = 0 :=
    countP_eq_zero_of_forall_false (fun ev hev => by
      obtain ⟨e, rfl⟩ := asnStage_events sC1 o ev hev; rfl)
  have h3 : (ccStage sC1 o).2.countP isReportCreateEv = 0 :=
    countP_eq_zero_of_forall_false (fun ev hev => by
      obtain ⟨e, rfl⟩ := ccStage_events sC1 o ev hev; rfl)
  have h4 : (resolverStage sC1 o).2.countP isReportCreateEv = 0 :=
    countP_eq_zero_of_forall_false (fun ev hev => by
      obtain ⟨e, rfl⟩ := resolverStage_events sC1 o ev hev; rfl)
  have h5 : (collectorStage sC1 o (bouncerStage sC1 o).1).2.2 = [] := by
    simp [collectorStage, sC1]
  have h6 := fun ctx => measurePhase_countP_zero sC1 nt ctx o isReportCreateEv
    isReportCreateEv_of_measurePhase (fun q m => rfl) (fun e => rfl)
    (fun r => rfl) rfl
  rw [h1, h2, h3, h4, h5, h6 _]
  simp [List.countP_cons, isReportCreateEv]

-- Claim C2 (code bug)

/-- Claim C2 (code bug): with an empty probe_ip setting and a failing IP
lookup, the `status.geoip_lookup` event carries probe_ip "" instead of the
documented default "127.0.0.1": the Runner stores the default (line 943)
but `lookup_ip` clears `*ip` on entry (line 1610) before failing, so the
default is lost. The run does emit the `failure.ip_lookup` event. -/
theorem claim_C2_ip_default_lost :
    (Runner.run defaultSettings defaultNettest oC2).1.filterMap geoipIp?
      = [""] ∧
    (Runner.run defaultSettings defaultNettest oC2).1.countP
      isFailureIpLookupEv = 1 := by
  constructor
  · rfl
  · rfl

-- Claim C7 (corrected): the dispatcher

/-- A worker iteration that is not timed out emits exactly one
`status.measurement_start`, for the claimed index, and returns true. -/
theorem run_with_index32_startIdxs (s : Settings) (nt : Nettest)
    (ctx : NettestContext) (o : Oracles) (inputs : List String) (i : ℕ)
    (h : o.timedOut i = false) :
    (run_with_index32 s nt ctx o inputs i).1.filterMap startIdx? = [i] ∧
    (run_with_index32 s nt ctx o inputs i).2 = true := by
  unfold run_with_index32
  rw [h]
  dsimp only
  constructor
  · rcases hur : o.updateReport i with e | u <;>
    by_cases hrv : (o.nettestRun i).1 = true <;>
    by_cases hd : o.dumpOk i = true <;>
    by_cases hcr : s.no_collector = false ∧ ctx.report_id ≠ "" <;>
    by_cases hre : ctx.report_id = "" <;>
    simp [hur, hrv, hd, hcr, hre, startIdx?]
  · rfl

/-- The indices claimed by the dispatcher with no interrupt and no timeout,
starting from counter value `i` with enough fuel: all of
`i, i+1, ..., min(len(inputs), 2^32) - 1`, in order. -/
theorem measureLoop_startIdxs (s : Settings) (nt : Nettest)
    (ctx : NettestContext) (o : Oracles) (inputs : List String)
    (hni : ∀ k, o.interrupted k = false)
    (hto : ∀ k, o.timedOut k = false) :
    ∀ fuel i, inputs.length ≤ i + fuel →
      (measureLoop s nt ctx o inputs fuel i).filterMap startIdx?
        = List.range' i (min inputs.length (2 ^ 32) - i) := by
  intro fuel
  induction fuel with
  | zero =>
    intro i hfi
    have : min inputs.length (2 ^ 32) - i = 0 := by omega
    rw [this]
    rfl
  | succ fuel ih =>
    intro i hfi
    unfold measureLoop
    have hi : ¬ (o.interrupted i = true) := by
      rw [hni i]; exact Bool.false_ne_true
    rw [if_neg hi]
    by_cases hg : 2 ^ 32 - 1 < i ∨ inputs.length ≤ i
    · rw [if_pos hg]
      have : min inputs.length (2 ^ 32) - i = 0 := by omega
      rw [this]
      rfl
    · rw [if_neg hg]
      dsimp only
      push_neg at hg
      obtain ⟨hstart, hret⟩ :=
        run_with_index32_startIdxs s nt ctx o inputs i (hto i)
      rw [List.filterMap_append, hstart, hret, if_pos rfl,
        ih (i + 1) (by omega)]
      have : min inputs.length (2 ^ 32) - i
          = (min inputs.length (2 ^ 32) - (i + 1)) + 1 := by omega
      rw [this, List.range'_succ]
      rfl

/-- Counterexample to claim C7 as stated: with 2^32 + 1 inputs (and no
interrupt, no timeout), the last input index, 2^32, is never claimed by any
worker: the guard at line 1160 stops dispatching once the shared counter
exceeds UINT32_MAX, leaving a gap. -/
theorem claim_C7_counterexample :
    ((List.replicate (2 ^ 32 + 1) "").length - 1) ∉
      startIdxs (measureLoop defaultSettings defaultNettest {} trivialOracles
        (List.replicate (2 ^ 32 + 1) "")
        (List.replicate (2 ^ 32 + 1) "").length 0) := by
  rw [startIdxs, measureLoop_startIdxs defaultSettings defaultNettest {}
    trivialOracles (List.replicate (2 ^ 32 + 1) "") (fun k => rfl)
    (fun k => rfl) (List.replicate (2 ^ 32 + 1) "").length 0 (by omega)]
  simp only [List.length_replicate, List.mem_range']
  omega

/-- Claim C7 as amended: when no interrupt is raised, no timeout fires, and
the input list has at most 2^32 entries, every input index is claimed
exactly once, and every claimed index is in range and at most 2^32 - 1.
(The claim as stated omits the length bound; see the counterexample.) -/
theorem claim_C7_dispatch_exactly_once (s : Settings) (nt : Nettest)
    (ctx : NettestContext) (o : Oracles) (inputs : List String)
    (hni : ∀ k, o.interrupted k = false)
    (hto : ∀ k, o.timedOut k = false)
    (hlen : inputs.length ≤ 2 ^ 32) :
    (∀ k < inputs.length,
      (startIdxs (measureLoop s nt ctx o inputs inputs.length 0)).count k
        = 1) ∧
    (∀ idx ∈ startIdxs (measureLoop s nt ctx o inputs inputs.length 0),
      idx < inputs.length ∧ idx ≤ 2 ^ 32 - 1) := by
  have hchar : startIdxs (measureLoop s nt ctx o inputs inputs.length 0)
      = List.range inputs.length := by
    rw [startIdxs, measureLoop_startIdxs s nt ctx o inputs hni hto
      inputs.length 0 (by omega)]
    rw [Nat.min_eq_left hlen, Nat.sub_zero, List.range_eq_range']
  rw [hchar]
  constructor
  · intro k hk
    exact List.count_eq_one_of_mem (List.nodup_range _)
      (List.mem_range.mpr hk)
  · intro idx hidx
    have h := List.mem_range.mp hidx
    exact ⟨h, by omega⟩

/-- Witness for C7 at three inputs. -/
theorem claim_C7_witness :
    (∀ k < (["a", "b", "c"] : List String).length,
      (startIdxs (measureLoop defaultSettings defaultNettest {}
        trivialOracles ["a", "b", "c"]
        (["a", "b", "c"] : List String).length 0)).count k = 1) ∧
    (∀ idx ∈ startIdxs (measureLoop defaultSettings defaultNettest {}
        trivialOracles ["a", "b", "c"]
        (["a", "b", "c"] : List String).length 0),
      idx < (["a", "b", "c"] : List String).length ∧ idx ≤ 2 ^ 32 - 1) :=
  claim_C7_dispatch_exactly_once defaultSettings defaultNettest {}
    trivialOracles ["a", "b", "c"] (fun k => rfl) (fun k => rfl)
    (by norm_num)

-- Claim C10 (confirmed)

/-- Claim C10 (confirmed): when the nettest run() returns false for an input
(and the worker is not timed out, serialization succeeds, the collector is
enabled and a report is open), `run_with_index32` emits
`failure.measurement` with that index, still submits the record (one of the
two submission events is emitted), still emits the `measurement` and
`status.measurement_done` events, and returns true - so the worker loop
goes on to the next input. -/
theorem claim_C10_failed_measurement (s : Settings) (nt : Nettest)
    (ctx : NettestContext) (o : Oracles) (inputs : List String) (i : ℕ)
    (hto : o.timedOut i = false)
    (hrv : (o.nettestRun i).1 = false)
    (hdump : o.dumpOk i = true)
    (hcol : s.no_collector = false)
    (hrid : ctx.report_id ≠ "") :
    (run_with_index32 s nt ctx o inputs i).2 = true ∧
    (run_with_index32 s nt ctx o inputs i).1 =
      [.statusMeasurementStart i (inputs.getD i ""), .failureMeasurement i]
      ++ (match o.updateReport i with
          | .error e => [.failureMeasurementSubmission i
              (finalMeasurement s nt ctx (o.uuid i) (inputs.getD i "")
                (o.measurementStartTime i) o.testStartTime (o.testRuntime i)
                (o.nettestRun i).2) e]
          | .ok _ => [.statusMeasurementSubmission i])
      ++ [.measurementEv i (finalMeasurement s nt ctx (o.uuid i)
            (inputs.getD i "") (o.measurementStartTime i) o.testStartTime
            (o.testRuntime i) (o.nettestRun i).2),
          .statusMeasurementDone i] := by
  unfold run_with_index32
  rw [hto]
  dsimp only
  refine ⟨rfl, ?_⟩
  rcases hur : o.updateReport i with e | u <;>
    simp [hrv, hdump, hcol, hrid, hur]

/-- Witness for C10: a failing nettest on one input with an open report and
a successful submission. -/
theorem claim_C10_witness :
    (run_with_index32 defaultSettings defaultNettest ctxC10 oC10 [""] 0).2
      = true ∧
    (run_with_index32 defaultSettings defaultNettest ctxC10 oC10 [""] 0).1 =
      [.statusMeasurementStart 0 (([""] : List String).getD 0 ""),
       .failureMeasurement 0]
      ++ (match oC10.updateReport 0 with
          | .error e => [.failureMeasurementSubmission 0
              (finalMeasurement defaultSettings defaultNettest ctxC10
                (oC10.uuid 0) (([""] : List String).getD 0 "")
                (oC10.measurementStartTime 0) oC10.testStartTime
                (oC10.testRuntime 0) (oC10.nettestRun 0).2) e]
          | .ok _ => [.statusMeasurementSubmission 0])
      ++ [.measurementEv 0 (finalMeasurement defaultSettings defaultNettest
            ctxC10 (oC10.uuid 0) (([""] : List String).getD 0 "")
            (oC10.measurementStartTime 0) oC10.testStartTime
            (oC10.testRuntime 0) (oC10.nettestRun 0).2),
          .statusMeasurementDone 0] :=
  claim_C10_failed_measurement defaultSettings defaultNettest ctxC10 oC10
    [""] 0 rfl rfl rfl rfl (by decide)

-- Claim C8 (confirmed): numeric-as-boolean backwards compatibility

theorem except_bind_ok {ε α β : Type} {x : Except ε α} {f : α → Except ε β}
    {b : β} : (x >>= f) = .ok b ↔ ∃ a, x = .ok a ∧ f a = .ok b := by
  cases x <;> simp [Bind.bind, Except.bind]

/-- A numeric value at a boolean option: the boolean get fails, the double
fallback succeeds, the value is coerced with != 0 and the deprecation
warning is written. -/
theorem maybeGetBool_num {doc : Json} {ptr : String} {q : ℚ}
    (h : jsonPointerAt doc (jsonPointerParse ptr) = some (.num q)) :
    maybeGetBool doc ptr = .ok (q != 0, some (deprecationWarning ptr)) := by
  simp [maybeGetBool, jsonMaybeGetBool, jsonMaybeGetNum, h]

/-- The warning slot a MAYBE_GET_BOOL read can produce: nothing, or the
deprecation message for its pointer. -/
theorem maybeGetBool_warn {doc : Json} {ptr : String} {r : Bool × Option String}
    (h : maybeGetBool doc ptr = .ok r) :
    r.2 = none ∨ r.2 = some (deprecationWarning ptr) := by
  unfold maybeGetBool at h
  rcases hb : jsonMaybeGetBool doc ptr with e | v
  · rw [hb] at h
    rcases hn : jsonMaybeGetNum doc ptr with e2 | q
    · rw [hn] at h; cases h
    · rw [hn] at h
      have := Except.ok.inj h
      rw [← this]
      exact Or.inr rfl
  · rw [hb] at h
    have := Except.ok.inj h
    rw [← this]
    exact Or.inl rfl

theorem deprecationWarning_ne_empty (ptr : String) :
    deprecationWarning ptr ≠ "" := by
  unfold deprecationWarning
  intro h
  have hlen := congrArg String.length h
  simp only [String.length_append] at hlen
  have h1 : ("Found number variable at ").length = 25 := rfl
  have h2 : ("" : String).length = 0 := rfl
  omega

/-- Overwriting fold of the warn buffer: nonempty as soon as some warning
was written (given every written warning is nonempty). -/
theorem overwriteWarn_aux (ws : List (Option String)) (acc : String)
    (hall : ∀ m, some m ∈ ws → m ≠ "")
    (h : (∃ m, some m ∈ ws) ∨ acc ≠ "") :
    ws.foldl (fun a w => w.getD a) acc ≠ "" := by
  induction ws generalizing acc with
  | nil =>
    rcases h with ⟨m, hm⟩ | h
    · cases hm
    · exact h
  | cons w ws ih =>
    rw [List.foldl_cons]
    cases w with
    | none =>
      apply ih
      · intro m hm; exact hall m (List.mem_cons_of_mem _ hm)
      · rcases h with ⟨m, hm⟩ | hacc
        · rcases List.mem_cons.mp hm with heq | hmem
          · exact absurd heq (by simp)
          · exact Or.inl ⟨m, hmem⟩
        · exact Or.inr hacc
    | some m0 =>
      apply ih
      · intro m hm; exact hall m (List.mem_cons_of_mem _ hm)
      · exact Or.inr (hall m0 (List.mem_cons_self _ _))

/-- Inversion of a successful parse: every boolean option was read through
MAYBE_GET_BOOL, its value landed in the matching Settings field, and if its
read wrote a warning then the final warn buffer is nonempty. -/
theorem parse_settings_ok_inv (doc : Json) (s : Settings) (warn : String)
    (hok : parse_settings doc = .ok (s, warn)) (b : BoolOption) :
    ∃ r, maybeGetBool doc b.ptr = .ok r ∧ b.field s = r.1 ∧
      (∀ m, r.2 = some m → warn ≠ "") := by
  rw [parse_settings] at hok
  simp only [except_bind_ok, Except.ok.injEq, Prod.mk.injEq] at hok
  obtain ⟨u0, hu0, wAnnots, hAnnots, wInputs, hInputs, wInputFilepaths,
    hInputFilepaths, wLogFilepath, hLogFilepath, wLogLevelStr, hLogLevelStr,
    wLogLevel, hLogLevel, wName, hName, wOutputFilepath, hOutputFilepath,
    wAllEndpoints, hAllEndpoints, wBouncerBaseUrl, hBouncerBaseUrl,
    wCaBundlePath, hCaBundlePath, wCollectorBaseUrl, hCollectorBaseUrl,
    wEngineName, hEngineName, wEngineVersion, hEngineVersion,
    wEngineVersionFull, hEngineVersionFull, wGeoipAsnPath, hGeoipAsnPath,
    wGeoipCountryPath, hGeoipCountryPath, wMaxRuntime, hMaxRuntime,
    wNoAsnLookup, hNoAsnLookup, wNoBouncer, hNoBouncer, wNoCcLookup,
    hNoCcLookup, wNoCollector, hNoCollector, wNoFileReport, hNoFileReport,
    wNoIpLookup, hNoIpLookup, wNoResolverLookup, hNoResolverLookup,
    wParallelism, hParallelism, wPlatform, hPlatform, wPort, hPort,
    wProbeIp, hProbeIp, wProbeAsn, hProbeAsn, wProbeNetworkName,
    hProbeNetworkName, wProbeCc, hProbeCc, wRandomizeInput, hRandomizeInput,
    wSaveRealProbeAsn, hSaveRealProbeAsn, wSaveRealProbeIp,
    hSaveRealProbeIp, wSaveRealProbeCc, hSaveRealProbeCc,
    wSaveRealResolverIp, hSaveRealResolverIp, wServer, hServer,
    wSoftwareName, hSoftwareName, wSoftwareVersion, hSoftwareVersion,
    hs, hwarn⟩ := hok
  subst hs
  subst hwarn
  have hw : ∀ (ptr : String) (r : Bool × Option String),
      maybeGetBool doc ptr = .ok r → ∀ m, some m = r.2 → m ≠ "" := by
    intro ptr r hr m hm
    rcases maybeGetBool_warn hr with hn | hsome
    · rw [hn] at hm; cases hm
    · rw [hsome] at hm
      injection hm with hm2
      rw [hm2]
      exact deprecationWarning_ne_empty ptr
  have hall : ∀ m, some m ∈ [wAllEndpoints.2, wNoAsnLookup.2, wNoBouncer.2,
      wNoCcLookup.2, wNoCollector.2, wNoFileReport.2, wNoIpLookup.2,
      wNoResolverLookup.2, wRandomizeInput.2, wSaveRealProbeAsn.2,
      wSaveRealProbeIp.2, wSaveRealProbeCc.2, wSaveRealResolverIp.2]
      → m ≠ "" := by
    intro m hm
    simp only [List.mem_cons, List.not_mem_nil, or_false] at hm
    rcases hm with h | h | h | h | h | h | h | h | h | h | h | h | h
    · exact hw _ _ hAllEndpoints m h
    · exact hw _ _ hNoAsnLookup m h
    · exact hw _ _ hNoBouncer m h
    · exact hw _ _ hNoCcLookup m h
    · exact hw _ _ hNoCollector m h
    · exact hw _ _ hNoFileReport m h
    · exact hw _ _ hNoIpLookup m h
    · exact hw _ _ hNoResolverLookup m h
    · exact hw _ _ hRandomizeInput m h
    · exact hw _ _ hSaveRealProbeAsn m h
    · exact hw _ _ hSaveRealProbeIp m h
    · exact hw _ _ hSaveRealProbeCc m h
    · exact hw _ _ hSaveRealResolverIp m h
  cases b with
  | all_endpoints =>
    refine ⟨wAllEndpoints, hAllEndpoints, rfl, fun m hm => ?_⟩
    exact overwriteWarn_aux _ "" hall (Or.inl ⟨m, by rw [← hm]; simp⟩)
  | no_asn_lookup =>
    refine ⟨wNoAsnLookup, hNoAsnLookup, rfl, fun m hm => ?_⟩
    exact overwriteWarn_aux _ "" hall (Or.inl ⟨m, by rw [← hm]; simp⟩)
  | no_bouncer =>
    refine ⟨wNoBouncer, hNoBouncer, rfl, fun m hm => ?_⟩
    exact overwriteWarn_aux _ "" hall (Or.inl ⟨m, by rw [← hm]; simp⟩)
  | no_cc_lookup =>
    refine ⟨wNoCcLookup, hNoCcLookup, rfl, fun m hm => ?_⟩
    exact overwriteWarn_aux _ "" hall (Or.inl ⟨m, by rw [← hm]; simp⟩)
  | no_collector =>
    refine ⟨wNoCollector, hNoCollector, rfl, fun m hm => ?_⟩
    exact overwriteWarn_aux _ "" hall (Or.inl ⟨m, by rw [← hm]; simp⟩)
  | no_file_report =>
    refine ⟨wNoFileReport, hNoFileReport, rfl, fun m hm => ?_⟩
    exact overwriteWarn_aux _ "" hall (Or.inl ⟨m, by rw [← hm]; simp⟩)
  | no_ip_lookup =>
    refine ⟨wNoIpLookup, hNoIpLookup, rfl, fun m hm => ?_⟩
    exact overwriteWarn_aux _ "" hall (Or.inl ⟨m, by rw [← hm]; simp⟩)
  | no_resolver_lookup =>
    refine ⟨wNoResolverLookup, hNoResolverLookup, rfl, fun m hm => ?_⟩
    exact overwriteWarn_aux _ "" hall (Or.inl ⟨m, by rw [← hm]; simp⟩)
  | randomize_input =>
    refine ⟨wRandomizeInput, hRandomizeInput, rfl, fun m hm => ?_⟩
    exact overwriteWarn_aux _ "" hall (Or.inl ⟨m, by rw [← hm]; simp⟩)
  | save_real_probe_asn =>
    refine ⟨wSaveRealProbeAsn, hSaveRealProbeAsn, rfl, fun m hm => ?_⟩
    exact overwriteWarn_aux _ "" hall (Or.inl ⟨m, by rw [← hm]; simp⟩)
  | save_real_probe_ip =>
    refine ⟨wSaveRealProbeIp, hSaveRealProbeIp, rfl, fun m hm => ?_⟩
    exact overwriteWarn_aux _ "" hall (Or.inl ⟨m, by rw [← hm]; simp⟩)
  | save_real_probe_cc =>
    refine ⟨wSaveRealProbeCc, hSaveRealProbeCc, rfl, fun m hm => ?_⟩
    exact overwriteWarn_aux _ "" hall (Or.inl ⟨m, by rw [← hm]; simp⟩)
  | save_real_resolver_ip =>
    refine ⟨wSaveRealResolverIp, hSaveRealResolverIp, rfl, fun m hm => ?_⟩
    exact overwriteWarn_aux _ "" hall (Or.inl ⟨m, by rw [← hm]; simp⟩)

/-- Claim C8 (confirmed): for every boolean option whose value in the
settings JSON is a number, a successful parse_settings sets the matching
Settings field to (value != 0) and leaves a nonempty deprecation warning in
the warn buffer. (The parse itself cannot fail because of the numeric
value: MAYBE_GET_BOOL falls back to the double read, lines 549-576.) -/
theorem claim_C8_numeric_bool (doc : Json) (b : BoolOption) (q : ℚ)
    (s : Settings) (warn : String)
    (hnum : jsonPointerAt doc (jsonPointerParse b.ptr) = some (.num q))
    (hok : parse_settings doc = .ok (s, warn)) :
    b.field s = (q != 0) ∧ warn ≠ "" := by
  obtain ⟨r, hr, hfield, hwarn⟩ := parse_settings_ok_inv doc s warn hok b
  rw [maybeGetBool_num hnum] at hr
  have hreq : r = (q != 0, some (deprecationWarning b.ptr)) :=
    (Except.ok.inj hr).symm
  subst hreq
  exact ⟨hfield, hwarn _ rfl⟩

/-- Witness for C8: `docC8` holds `no_bouncer: 1`; the parse succeeds with
no_bouncer set to true and a nonempty warning. -/
theorem claim_C8_witness :
    BoolOption.field .no_bouncer parsedC8.1 = ((1 : ℚ) != 0)
      ∧ parsedC8.2 ≠ "" :=
  claim_C8_numeric_bool docC8 .no_bouncer 1 parsedC8.1 parsedC8.2 rfl rfl

end Libnettest2
